import Mathlib

/-!
Verification development for the contact-form backend service (src/main.py).

The service exposes four HTTP endpoints: a root banner, a static plan
listing (`GET /api/plans`), a contact-form intake (`POST /api/contact`)
that fans out to three best-effort sinks (document store, SMTP email,
Notion page creation), and a storage diagnostics report (`GET /test`).

The embedding below models the handlers as pure Lean functions.  External
collaborators (the document store's `create_document`, the SMTP send, the
HTTP POST to the Notion API) are passed in as `Except`-valued outcomes,
so that a raised exception in a sink is the `Except.error` case.  The
process environment is a record of optional string variables.  Python
string slicing `s[:n]` is `pyTruncate`, Python truthiness of an optional
environment value is `truthy`, and Python's `int(...)` conversion (which
raises `ValueError` on a non-numeric string) is `pythonInt`, returning
`none` where the original raises.
-/

namespace ContactBackend

/-- Python truthiness of an `os.getenv` result: `None` (unset) and the empty
string are both falsy; any other string is truthy. -/
def truthy : Option String → Bool
  | none => false
  | some s => !s.data.isEmpty

/-- Python string slice `s[:n]`: the first `n` characters of `s`, or all of
`s` when it is shorter than `n`. -/
def pyTruncate (s : String) (n : Nat) : String :=
  ⟨s.data.take n⟩

/-- Both-ends whitespace stripping, as Python `int(...)` applies to its
string argument before conversion. -/
def pyTrim (l : List Char) : List Char :=
  ((l.dropWhile Char.isWhitespace).reverse.dropWhile Char.isWhitespace).reverse

/-- The value of a nonempty all-digit character run, `none` otherwise. -/
def decDigits : List Char → Option Nat
  | [] => none
  | l =>
    if l.all Char.isDigit then
      some (l.foldl (fun a c => 10 * a + (c.toNat - 48)) 0)
    else none

/-- Python `int(s)` on a string: optional surrounding whitespace, an optional
sign, then a nonempty run of decimal digits; any other string raises
`ValueError`, modelled as `none`.  (Underscore digit grouping is not
modelled; no claim depends on it.) -/
def pythonInt (s : String) : Option Int :=
  match pyTrim s.data with
  | '-' :: rest => (decDigits rest).map (fun n => -(n : Int))
  | '+' :: rest => (decDigits rest).map (fun n => (n : Int))
  | rest => (decDigits rest).map (fun n => (n : Int))

/-- The process environment: every variable read by src/main.py via
`os.getenv`, as an optional string (`none` = unset). -/
structure Env where
  stripeStarterUrl : Option String := none
  paypalStarterUrl : Option String := none
  stripeGrowthUrl : Option String := none
  paypalGrowthUrl : Option String := none
  stripeScaleUrl : Option String := none
  paypalScaleUrl : Option String := none
  smtpHost : Option String := none
  smtpPort : Option String := none
  smtpUser : Option String := none
  smtpPass : Option String := none
  notifyEmail : Option String := none
  notionToken : Option String := none
  notionDatabaseId : Option String := none
  databaseUrl : Option String := none
  databaseName : Option String := none
deriving DecidableEq, Repr

/-- One subscription tier as returned by `GET /api/plans`
(src/main.py:42-85): a dict with id, name, hours, price note, feature
list, and the two payment links read from the environment. -/
structure PlanTier where
  id : String
  name : String
  hours : Nat
  price_note : String
  features : List String
  stripe_url : Option String
  paypal_url : Option String
deriving DecidableEq, Repr

/-- The `get_plans` handler (src/main.py:38-86): a static list of three
tiers, each carrying its payment links straight from the environment. -/
def get_plans (env : Env) : List PlanTier :=
  [ { id := "starter", name := "Starter", hours := 3,
      price_note := "Billed hourly via subscription",
      features := ["Priority support", "AI-enhanced workflows",
                   "Flexible hour use", "Instant collaboration"],
      stripe_url := env.stripeStarterUrl, paypal_url := env.paypalStarterUrl },
    { id := "growth", name := "Growth", hours := 6,
      price_note := "Billed hourly via subscription",
      features := ["Priority support", "AI-enhanced workflows",
                   "Flexible hour use", "Instant collaboration"],
      stripe_url := env.stripeGrowthUrl, paypal_url := env.paypalGrowthUrl },
    { id := "scale", name := "Scale", hours := 9,
      price_note := "Billed hourly via subscription",
      features := ["Priority support", "AI-enhanced workflows",
                   "Flexible hour use", "Instant collaboration"],
      stripe_url := env.stripeScaleUrl, paypal_url := env.paypalScaleUrl } ]

/-- A validated contact payload (the pydantic model `ContactPayload`,
src/main.py:25-30) after parsing: `company` keeps its `Optional[str]`
type; `source` has already received its default `"website"` when the
field was missing from the request body. -/
structure ContactPayload where
  name : String
  email : String
  company : Option String
  message : String
  source : String
deriving DecidableEq, Repr

/-- A raw inbound JSON body for `POST /api/contact`: each field either
present with a string value or missing.  (A field present with an
explicit JSON `null` is not distinguished from a missing one; no claim
depends on that case.) -/
structure RawContact where
  name : Option String
  email : Option String
  company : Option String
  message : Option String
  source : Option String
deriving DecidableEq, Repr

/-- Modelled from the spec: the syntactic email validation the framework
applies to the `EmailStr` field (the validator library is external to this
repository).  An address is accepted when it has exactly one at-sign
separating a nonempty local part from a nonempty domain that contains a
dot and neither starts nor ends with one. -/
def isValidEmail (s : String) : Bool :=
  let lp := s.data.takeWhile (fun c => c != '@')
  match s.data.dropWhile (fun c => c != '@') with
  | '@' :: dom =>
    !dom.contains '@' && !lp.isEmpty && !dom.isEmpty && dom.contains '.' &&
      dom.head? != some '.' && dom.getLast? != some '.'
  | _ => false

/-- Request-body validation as performed by the framework on the pydantic
model `ContactPayload` (src/main.py:25-30): `name`, `email`, `message`
are required (`str` / `EmailStr`) but carry no emptiness constraint;
`email` must pass syntactic email validation; `company` stays optional;
`source` defaults to `"website"` when missing.  `none` is a client-error
(422) rejection before the handler runs. -/
def validate (raw : RawContact) : Option ContactPayload :=
  match raw.name, raw.email, raw.message with
  | some n, some e, some m =>
    if isValidEmail e then
      some { name := n, email := e, company := raw.company,
             message := m, source := raw.source.getD "website" }
    else none
  | _, _, _ => none

/-- The record handed to the store's `create_document("contact", ...)`
(src/main.py:94-101): the payload fields plus the receipt timestamp. -/
structure StoreRecord where
  name : String
  email : String
  company : Option String
  message : String
  source : String
  received_at : String
deriving DecidableEq, Repr

/-- The email-sink configuration gate (src/main.py:113): all four of
SMTP_HOST, SMTP_USER, SMTP_PASS, NOTIFY_EMAIL must be truthy.  Note that
SMTP_PORT is not part of the gate. -/
def emailConfigured (env : Env) : Bool :=
  truthy env.smtpHost && truthy env.smtpUser && truthy env.smtpPass &&
    truthy env.notifyEmail

/-- The Notion-sink configuration gate (src/main.py:135): both
NOTION_TOKEN and NOTION_DATABASE_ID must be truthy. -/
def notionConfigured (env : Env) : Bool :=
  truthy env.notionToken && truthy env.notionDatabaseId

/-- The email status string recorded when the SMTP block runs
(src/main.py:114-129): `"sent"` on success, otherwise the exception text
truncated to 80 characters behind an `"error: "` marker. -/
def emailStatusOf (send : Except String Unit) : String :=
  match send with
  | .ok _ => "sent"
  | .error e => "error: " ++ pyTruncate e 80

/-- The Notion status string recorded when the Notion block runs
(src/main.py:136-159): `"created"` on HTTP 200/201; on any other status
the code and the first 80 characters of the body behind an `"error: "`
marker; on a raised exception its text truncated to 80 characters behind
the same marker. -/
def notionStatusOf (post : Except String (Nat × String)) : String :=
  match post with
  | .ok (code, text) =>
    if code == 200 || code == 201 then "created"
    else "error: " ++ toString code ++ " " ++ pyTruncate text 80
  | .error e => "error: " ++ pyTruncate e 80

/-- The page-creation payload sent to the Notion API (src/main.py:142-152),
restricted to the property contents: name as the title, email as the
email field, company as rich text (empty string when absent), source as
the select option (Python `or` turns a falsy source into `"website"`),
and the message as rich text truncated by the slice `payload.message[:1900]`. -/
structure NotionPayload where
  nameTitle : String
  emailField : String
  companyRichText : String
  sourceSelect : String
  messageRichText : String
deriving DecidableEq, Repr

/-- Builds the Notion page-creation payload from a validated submission
(src/main.py:142-152). -/
def notionPayloadOf (p : ContactPayload) : NotionPayload :=
  { nameTitle := p.name,
    emailField := p.email,
    companyRichText := p.company.getD "",
    sourceSelect := if p.source.isEmpty then "website" else p.source,
    messageRichText := pyTruncate p.message 1900 }

/-- The JSON object returned by a completed `POST /api/contact`
(src/main.py:161-166). -/
structure ContactResponse where
  ok : Bool
  id : Option String
  email_status : Option String
  notion_status : Option String
deriving DecidableEq, Repr

/-- The keys of the dict literal returned by `POST /api/contact`
(src/main.py:161-166), in order. -/
def ContactResponse.fieldNames : List String :=
  ["ok", "id", "email_status", "notion_status"]

/-- Everything observable about one run of the `contact` handler: the
record passed to the store, whether each optional sink block was entered,
the Notion payload when one was built, and the HTTP response — `none`
when the handler raised out of the request (an uncaught exception,
surfaced by the framework as a server error). -/
structure ContactResult where
  storeRecord : StoreRecord
  emailAttempted : Bool
  notionAttempted : Bool
  notionPayload : Option NotionPayload
  response : Option ContactResponse
deriving DecidableEq, Repr

/-- The `contact` handler (src/main.py:89-166) on a validated payload.

`now` stands for `datetime.now(timezone.utc).isoformat()`.  `store` is
the outcome of `create_document` (`ok` a generated id, `error` a raised
exception); its try/except converts failure into `doc_id = None`.
`send` is the outcome of the SMTP block body, `post` the outcome of
`requests.post` (`ok (status, body)` or a raised exception).

`int(os.getenv("SMTP_PORT", "587"))` runs after the store attempt and
before the email configuration gate, outside every try block: when it
raises, the handler dies there and no response is produced. -/
def contact (env : Env) (p : ContactPayload) (now : String)
    (store : Except String String) (send : Except String Unit)
    (post : Except String (Nat × String)) : ContactResult :=
  let record : StoreRecord :=
    { name := p.name, email := p.email, company := p.company,
      message := p.message, source := p.source, received_at := now }
  let doc_id : Option String :=
    match store with
    | .ok i => some i
    | .error _ => none
  match pythonInt (env.smtpPort.getD "587") with
  | none =>
    { storeRecord := record, emailAttempted := false,
      notionAttempted := false, notionPayload := none, response := none }
  | some _ =>
    let email_status : Option String :=
      if emailConfigured env then some (emailStatusOf send) else none
    let notion_status : Option String :=
      if notionConfigured env then some (notionStatusOf post) else none
    { storeRecord := record,
      emailAttempted := emailConfigured env,
      notionAttempted := notionConfigured env,
      notionPayload :=
        if notionConfigured env then some (notionPayloadOf p) else none,
      response := some
        { ok := true, id := doc_id,
          email_status := email_status, notion_status := notion_status } }

/-- Whether `int(os.getenv("SMTP_PORT", "587"))` (src/main.py:109)
converts without raising. -/
def portParses (env : Env) : Bool :=
  (pythonInt (env.smtpPort.getD "587")).isSome

/-- Outcome of the full `POST /api/contact` route: either the framework
rejects the body with a client error before the handler runs, or the
handler runs and produces a `ContactResult`. -/
inductive PostContactOutcome where
  | clientError
  | handled (r : ContactResult)
deriving DecidableEq, Repr

/-- The full `POST /api/contact` route: framework validation of the raw
body, then the `contact` handler. -/
def postContact (env : Env) (raw : RawContact) (now : String)
    (store : Except String String) (send : Except String Unit)
    (post : Except String (Nat × String)) : PostContactOutcome :=
  match validate raw with
  | none => .clientError
  | some p => .handled (contact env p now store send post)

/-- A live storage handle as `/test` uses it: its `name` attribute when
present, and the outcome of `list_collection_names()` (`error` is a
raised exception with its text). -/
structure DbHandle where
  name : Option String
  listCollectionNames : Except String (List String)

/-- How `from database import db` can go inside the try of `/test`
(src/main.py:181-202): a clean import (yielding `db`, possibly `None`),
an `ImportError`, or any other raised exception with its text. -/
inductive DbImportOutcome where
  | ok (db : Option DbHandle)
  | importError
  | otherError (e : String)

/-- The JSON object returned by `GET /test` (src/main.py:172-208).  The
two flag fields start as `None` in the dict, hence the `Option`. -/
structure TestResponse where
  backend : String
  database : String
  database_url : Option String
  database_name : Option String
  connection_status : String
  collections : List String

/-- The `test_database` handler (src/main.py:169-208).  It always returns
a response: every fallible step is inside a try/except.  The two
configuration flags are overwritten unconditionally at the end
(src/main.py:205-206), so the earlier values assigned to them never
survive to the response. -/
def test_database (imp : DbImportOutcome) (env : Env) : TestResponse :=
  let r : TestResponse :=
    { backend := "✅ Running", database := "❌ Not Available",
      database_url := none, database_name := none,
      connection_status := "Not Connected", collections := [] }
  let r : TestResponse :=
    match imp with
    | .importError =>
      { r with database := "❌ Database module not found (run enable-database first)" }
    | .otherError e =>
      { r with database := "❌ Error: " ++ pyTruncate e 50 }
    | .ok none =>
      { r with database := "⚠️  Available but not initialized" }
    | .ok (some db) =>
      let r :=
        { r with database := "✅ Available",
                 database_url := some "✅ Configured",
                 database_name := some (db.name.getD "✅ Connected"),
                 connection_status := "Connected" }
      match db.listCollectionNames with
      | .ok cs =>
        { r with collections := cs.take 10,
                 database := "✅ Connected & Working" }
      | .error e =>
        { r with database := "⚠️  Connected but Error: " ++ pyTruncate e 50 }
  { r with
    database_url := some (if truthy env.databaseUrl then "✅ Set" else "❌ Not Set"),
    database_name := some (if truthy env.databaseName then "✅ Set" else "❌ Not Set") }

/-! Concrete fixtures used by witnesses and counterexamples. -/

/-- An environment with every variable unset. -/
def envEmpty : Env := {}

/-- An environment with the four email-sink settings configured. -/
def envSmtp : Env :=
  { smtpHost := some "smtp.example.com", smtpUser := some "user",
    smtpPass := some "pw", notifyEmail := some "notify@example.com" }

/-- An environment with the two Notion-sink settings configured. -/
def envNotion : Env :=
  { notionToken := some "tok", notionDatabaseId := some "db1" }

/-- An environment whose SMTP_PORT does not convert to an integer, with the
Notion sink otherwise fully configured and the email settings absent. -/
def envBadPort : Env :=
  { smtpPort := some "abc", notionToken := some "tok",
    notionDatabaseId := some "db1" }

/-- A small valid submission. -/
def payloadA : ContactPayload :=
  { name := "Ada", email := "a@b.com", company := none,
    message := "hi", source := "website" }

/-- A valid submission whose message is 5000 characters long. -/
def payload5000 : ContactPayload :=
  { name := "Ada", email := "a@b.com", company := none,
    message := ⟨List.replicate 5000 'a'⟩, source := "website" }

/-- A raw request body with an empty name, a well-formed email and a
nonempty message. -/
def rawEmptyName : RawContact :=
  { name := some "", email := some "a@b.com", company := none,
    message := some "hi", source := none }

/-- A raw request body whose email is not syntactically valid. -/
def rawBadEmail : RawContact :=
  { name := some "Ada", email := some "not-an-email", company := none,
    message := some "hi", source := none }

/-- An exception text 100 characters long. -/
def longError : String := ⟨List.replicate 100 'x'⟩

/-! Helper lemmas about the Python string primitives. -/

/-- The length of a Python slice `s[:n]` is the minimum of `n` and the
length of `s`. -/
theorem pyTruncate_length (s : String) (n : Nat) :
    (pyTruncate s n).length = min n s.length := by
  cases s with
  | mk l => exact List.length_take n l

/-- A Python slice `s[:n]` leaves a string of length at most `n`
unchanged. -/
theorem pyTruncate_of_length_le (s : String) (n : Nat)
    (h : s.length ≤ n) : pyTruncate s n = s := by
  cases s with
  | mk l => exact congrArg String.mk (List.take_of_length_le h)

/-- Normal form of the handler's response once SMTP_PORT is known to
convert: `ok` is `true`, the id is the store outcome, and each optional
sink slot is filled exactly behind its configuration gate. -/
theorem contact_response_eq (env : Env) (p : ContactPayload) (now : String)
    (store : Except String String) (send : Except String Unit)
    (post : Except String (Nat × String)) (v : Int)
    (h : pythonInt (env.smtpPort.getD "587") = some v) :
    (contact env p now store send post).response = some
      { ok := true,
        id := store.toOption,
        email_status :=
          if emailConfigured env then some (emailStatusOf send) else none,
        notion_status :=
          if notionConfigured env then some (notionStatusOf post) else none } := by
  cases store <;> simp [contact, h, Except.toOption]

/-! Claim theorems. -/

/-- C1: for a valid contact submission, a raised exception in the store's
create operation changes neither whether the email sink block nor whether
the Notion sink block is entered, and the response still reports
`ok: true`.  (The handler produces a response at all exactly when
SMTP_PORT converts; that conversion does not depend on the store.) -/
theorem storage_failure_does_not_block_other_sinks (env : Env)
    (p : ContactPayload) (now reason docId : String)
    (send : Except String Unit) (post : Except String (Nat × String))
    (hport : portParses env = true) :
    (contact env p now (Except.error reason) send post).emailAttempted
      = (contact env p now (Except.ok docId) send post).emailAttempted ∧
    (contact env p now (Except.error reason) send post).notionAttempted
      = (contact env p now (Except.ok docId) send post).notionAttempted ∧
    ∃ resp, (contact env p now (Except.error reason) send post).response
        = some resp ∧ resp.ok = true := by
  unfold portParses at hport
  cases h : pythonInt (env.smtpPort.getD "587") with
  | none => rw [h] at hport; simp at hport
  | some v => simp [contact, h]

/-- C1 witness: in the empty environment (SMTP_PORT defaults to "587"),
a store outage neither changes the sink attempts nor the `ok` flag. -/
theorem storage_failure_does_not_block_other_sinks_witness :
    (contact envEmpty payloadA "t" (Except.error "store down")
        (Except.ok ()) (Except.ok (200, ""))).emailAttempted
      = (contact envEmpty payloadA "t" (Except.ok "id1")
        (Except.ok ()) (Except.ok (200, ""))).emailAttempted ∧
    (contact envEmpty payloadA "t" (Except.error "store down")
        (Except.ok ()) (Except.ok (200, ""))).notionAttempted
      = (contact envEmpty payloadA "t" (Except.ok "id1")
        (Except.ok ()) (Except.ok (200, ""))).notionAttempted ∧
    ∃ resp, (contact envEmpty payloadA "t" (Except.error "store down")
        (Except.ok ()) (Except.ok (200, ""))).response
        = some resp ∧ resp.ok = true :=
  storage_failure_does_not_block_other_sinks envEmpty payloadA "t"
    "store down" "id1" (Except.ok ()) (Except.ok (200, "")) (by decide)

/-- C2 counterexample: the body with an empty name, a well-formed email
and a nonempty message passes validation and reaches the handler, which
writes a store record and answers `ok: true` — it is not rejected and
sink processing does happen. -/
theorem empty_name_accepted :
    validate rawEmptyName
      = some { name := "", email := "a@b.com", company := none,
               message := "hi", source := "website" } ∧
    postContact envEmpty rawEmptyName "t" (Except.ok "id7")
        (Except.ok ()) (Except.ok (200, ""))
      = PostContactOutcome.handled
          { storeRecord :=
              { name := "", email := "a@b.com", company := none,
                message := "hi", source := "website", received_at := "t" },
            emailAttempted := false, notionAttempted := false,
            notionPayload := none,
            response := some
              { ok := true, id := some "id7",
                email_status := none, notion_status := none } } := by
  decide

/-- C2 amended: a request body missing `name`, `email`, or `message`, or
whose `email` fails syntactic email validation (the empty string does),
is rejected with a client error before the handler runs, so no sink is
attempted; an empty-string `name` or `message` is not rejected. -/
theorem missing_field_or_bad_email_rejected (env : Env) (raw : RawContact)
    (now : String) (store : Except String String) (send : Except String Unit)
    (post : Except String (Nat × String))
    (h : raw.name = none ∨ raw.email = none ∨ raw.message = none ∨
         ∃ e, raw.email = some e ∧ isValidEmail e = false) :
    postContact env raw now store send post
      = PostContactOutcome.clientError := by
  rcases raw with ⟨n, e, c, m, src⟩
  rcases h with h | h | h | ⟨e0, he, hv⟩ <;>
    cases n <;> cases e <;> cases m <;>
      simp_all [postContact, validate]

/-- C2 amended witness: a syntactically invalid email is rejected with a
client error. -/
theorem missing_field_or_bad_email_rejected_witness :
    postContact envEmpty rawBadEmail "t" (Except.ok "id7")
        (Except.ok ()) (Except.ok (200, ""))
      = PostContactOutcome.clientError :=
  missing_field_or_bad_email_rejected envEmpty rawBadEmail "t"
    (Except.ok "id7") (Except.ok ()) (Except.ok (200, ""))
    (Or.inr (Or.inr (Or.inr ⟨"not-an-email", rfl, by decide⟩)))

/-- C3 counterexample: the keys of the `POST /api/contact` response
object are `ok`, `id`, `email_status`, `notion_status` — there is no
`api_status` field. -/
theorem no_api_status_field :
    ContactResponse.fieldNames ≠ ["ok", "id", "email_status", "api_status"] ∧
    "api_status" ∉ ContactResponse.fieldNames ∧
    "notion_status" ∈ ContactResponse.fieldNames := by
  decide

/-- C3 amended: for every valid submission (whenever SMTP_PORT converts),
the handler returns an object with exactly the fields `ok`, `id`,
`email_status`, `notion_status`; `ok` is `true`, and each of the two
optional sink slots is `none` (skipped), a success marker, or an
`"error: "`-prefixed failure string — no slot is missing whatever the
sink outcomes, raised exceptions included. -/
theorem response_shape (env : Env) (p : ContactPayload) (now : String)
    (store : Except String String) (send : Except String Unit)
    (post : Except String (Nat × String))
    (hport : portParses env = true) :
    ContactResponse.fieldNames = ["ok", "id", "email_status", "notion_status"] ∧
    ∃ resp, (contact env p now store send post).response = some resp ∧
      resp.ok = true ∧
      (resp.email_status = none ∨ resp.email_status = some "sent" ∨
        ∃ e, resp.email_status = some ("error: " ++ e)) ∧
      (resp.notion_status = none ∨ resp.notion_status = some "created" ∨
        ∃ t, resp.notion_status = some ("error: " ++ t)) := by
  refine ⟨rfl, ?_⟩
  unfold portParses at hport
  cases h : pythonInt (env.smtpPort.getD "587") with
  | none => rw [h] at hport; simp at hport
  | some v =>
    refine ⟨_, contact_response_eq env p now store send post v h, rfl, ?_, ?_⟩
    · cases hc : emailConfigured env with
      | false => exact Or.inl (by simp [hc])
      | true =>
        cases send with
        | ok u => exact Or.inr (Or.inl (by simp [hc, emailStatusOf]))
        | error e =>
          exact Or.inr (Or.inr ⟨pyTruncate e 80, by simp [hc, emailStatusOf]⟩)
    · cases hc : notionConfigured env with
      | false => exact Or.inl (by simp [hc])
      | true =>
        cases post with
        | error e =>
          exact Or.inr (Or.inr ⟨pyTruncate e 80, by simp [hc, notionStatusOf]⟩)
        | ok st =>
          rcases st with ⟨code, text⟩
          cases h2 : (code == 200 || code == 201) with
          | true => exact Or.inr (Or.inl (by simp [hc, notionStatusOf, h2]))
          | false =>
            refine Or.inr (Or.inr ⟨toString code ++ " " ++ pyTruncate text 80, ?_⟩)
            simp [hc, notionStatusOf, h2, String.append_assoc]

/-- C3 amended witness: a concrete run in an environment where email is
configured and its send raises. -/
theorem response_shape_witness :
    ContactResponse.fieldNames = ["ok", "id", "email_status", "notion_status"] ∧
    ∃ resp, (contact envSmtp payloadA "t" (Except.ok "id1")
        (Except.error "boom") (Except.ok (200, ""))).response = some resp ∧
      resp.ok = true ∧
      (resp.email_status = none ∨ resp.email_status = some "sent" ∨
        ∃ e, resp.email_status = some ("error: " ++ e)) ∧
      (resp.notion_status = none ∨ resp.notion_status = some "created" ∨
        ∃ t, resp.notion_status = some ("error: " ++ t)) :=
  response_shape envSmtp payloadA "t" (Except.ok "id1")
    (Except.error "boom") (Except.ok (200, "")) (by decide)

/-- C4: the storage sink is attempted for every environment (there is no
configuration gate) with a record holding the submission fields plus the
receipt timestamp; when the create operation returns an id the response
carries it, when it raises the response carries `id = none` and the
request still completes. -/
theorem storage_always_attempted (env : Env) (p : ContactPayload)
    (now : String) (store : Except String String) (send : Except String Unit)
    (post : Except String (Nat × String))
    (hport : portParses env = true) :
    (contact env p now store send post).storeRecord =
      { name := p.name, email := p.email, company := p.company,
        message := p.message, source := p.source, received_at := now } ∧
    ∃ resp, (contact env p now store send post).response = some resp ∧
      resp.id = store.toOption := by
  unfold portParses at hport
  cases h : pythonInt (env.smtpPort.getD "587") with
  | none => rw [h] at hport; simp at hport
  | some v =>
    exact ⟨by simp [contact, h], _,
      contact_response_eq env p now store send post v h, rfl⟩

/-- C4 witness: with a failing store the record is still built and the
response carries `id = none`; the hypothesis holds in the empty
environment. -/
theorem storage_always_attempted_witness :
    (contact envEmpty payloadA "t" (Except.error "down")
        (Except.ok ()) (Except.ok (200, ""))).storeRecord =
      { name := payloadA.name, email := payloadA.email,
        company := payloadA.company, message := payloadA.message,
        source := payloadA.source, received_at := "t" } ∧
    ∃ resp, (contact envEmpty payloadA "t" (Except.error "down")
        (Except.ok ()) (Except.ok (200, ""))).response = some resp ∧
      resp.id = (Except.error "down" : Except String String).toOption :=
  storage_always_attempted envEmpty payloadA "t" (Except.error "down")
    (Except.ok ()) (Except.ok (200, "")) (by decide)

/-- C5: the email slot is `none` (skipped) exactly when at least one of
SMTP_HOST, SMTP_USER, SMTP_PASS, NOTIFY_EMAIL is unset or empty, and a
status is recorded exactly when all four are set and nonempty; the Notion
slot is `none` exactly when NOTION_TOKEN or NOTION_DATABASE_ID is unset
or empty. -/
theorem sink_configuration_gates (env : Env) (p : ContactPayload)
    (now : String) (store : Except String String) (send : Except String Unit)
    (post : Except String (Nat × String))
    (hport : portParses env = true) :
    ∃ resp, (contact env p now store send post).response = some resp ∧
      (resp.email_status = none ↔
        (truthy env.smtpHost = false ∨ truthy env.smtpUser = false ∨
         truthy env.smtpPass = false ∨ truthy env.notifyEmail = false)) ∧
      (resp.email_status.isSome = true ↔
        (truthy env.smtpHost = true ∧ truthy env.smtpUser = true ∧
         truthy env.smtpPass = true ∧ truthy env.notifyEmail = true)) ∧
      (resp.notion_status = none ↔
        (truthy env.notionToken = false ∨
         truthy env.notionDatabaseId = false)) := by
  unfold portParses at hport
  cases h : pythonInt (env.smtpPort.getD "587") with
  | none => rw [h] at hport; simp at hport
  | some v =>
    refine ⟨_, contact_response_eq env p now store send post v h, ?_, ?_, ?_⟩
    · cases h1 : truthy env.smtpHost <;> cases h2 : truthy env.smtpUser <;>
        cases h3 : truthy env.smtpPass <;> cases h4 : truthy env.notifyEmail <;>
          simp [emailConfigured, h1, h2, h3, h4]
    · cases h1 : truthy env.smtpHost <;> cases h2 : truthy env.smtpUser <;>
        cases h3 : truthy env.smtpPass <;> cases h4 : truthy env.notifyEmail <;>
          simp [emailConfigured, h1, h2, h3, h4]
    · cases h1 : truthy env.notionToken <;>
        cases h2 : truthy env.notionDatabaseId <;>
          simp [notionConfigured, h1, h2]

/-- C5 witness: with only the email settings configured, the email slot
carries a status and the Notion slot is skipped. -/
theorem sink_configuration_gates_witness :
    ∃ resp, (contact envSmtp payloadA "t" (Except.ok "id1")
        (Except.ok ()) (Except.ok (200, ""))).response = some resp ∧
      (resp.email_status = none ↔
        (truthy envSmtp.smtpHost = false ∨ truthy envSmtp.smtpUser = false ∨
         truthy envSmtp.smtpPass = false ∨
         truthy envSmtp.notifyEmail = false)) ∧
      (resp.email_status.isSome = true ↔
        (truthy envSmtp.smtpHost = true ∧ truthy envSmtp.smtpUser = true ∧
         truthy envSmtp.smtpPass = true ∧
         truthy envSmtp.notifyEmail = true)) ∧
      (resp.notion_status = none ↔
        (truthy envSmtp.notionToken = false ∨
         truthy envSmtp.notionDatabaseId = false)) :=
  sink_configuration_gates envSmtp payloadA "t" (Except.ok "id1")
    (Except.ok ()) (Except.ok (200, "")) (by decide)

/-- C6: when the Notion sink runs, the rich-text message field of the
page-creation payload is the slice `message[:1900]`: for a 5000-character
message exactly its first 1900 characters, and a message of at most 1900
characters goes through unmodified. -/
theorem message_truncation (env : Env) (p : ContactPayload) (now : String)
    (store : Except String String) (send : Except String Unit)
    (post : Except String (Nat × String))
    (hport : portParses env = true) (hconf : notionConfigured env = true) :
    ∃ pl, (contact env p now store send post).notionPayload = some pl ∧
      pl.messageRichText = pyTruncate p.message 1900 ∧
      (p.message.length = 5000 → pl.messageRichText.length = 1900) ∧
      (p.message.length ≤ 1900 → pl.messageRichText = p.message) := by
  unfold portParses at hport
  cases h : pythonInt (env.smtpPort.getD "587") with
  | none => rw [h] at hport; simp at hport
  | some v =>
    refine ⟨notionPayloadOf p, by simp [contact, h, hconf], rfl, ?_, ?_⟩
    · intro h5
      show (pyTruncate p.message 1900).length = 1900
      rw [pyTruncate_length, h5]
      omega
    · intro hle
      show pyTruncate p.message 1900 = p.message
      exact pyTruncate_of_length_le p.message 1900 hle

/-- C6 witness: with the Notion sink configured and a 5000-character
message, the payload's rich-text field is the 1900-character slice. -/
theorem message_truncation_witness :
    ∃ pl, (contact envNotion payload5000 "t" (Except.ok "id1")
        (Except.ok ()) (Except.ok (200, ""))).notionPayload = some pl ∧
      pl.messageRichText = pyTruncate payload5000.message 1900 ∧
      (payload5000.message.length = 5000 → pl.messageRichText.length = 1900) ∧
      (payload5000.message.length ≤ 1900 →
        pl.messageRichText = payload5000.message) :=
  message_truncation envNotion payload5000 "t" (Except.ok "id1")
    (Except.ok ()) (Except.ok (200, "")) (by decide) (by decide)

/-- C7 counterexample: with the email sink configured, a raised send
exception whose text is 100 characters long yields an exposed
`email_status` string of length 87 — more than 80 characters. -/
theorem failure_reason_exceeds_80 :
    ((contact envSmtp payloadA "t" (Except.ok "id1")
        (Except.error longError) (Except.ok (200, ""))).response.map
      (fun r => r.email_status.map String.length)) = some (some 87) := by
  decide

/-- C7 amended: only the embedded exception or body text is truncated to
80 characters; the exposed failure string also carries the `"error: "`
marker (7 characters), so an email or Notion exception status is at most
87 characters long, and a non-2xx Notion status is at most 88 characters
plus the digits of the status code. -/
theorem failure_reason_bounds (e text : String) (code : Nat)
    (h2 : code ≠ 200) (h3 : code ≠ 201) :
    (emailStatusOf (Except.error e)).length = 7 + min 80 e.length ∧
    (emailStatusOf (Except.error e)).length ≤ 87 ∧
    (notionStatusOf (Except.error e)).length ≤ 87 ∧
    (notionStatusOf (Except.ok (code, text))).length
      ≤ 88 + (toString code).length := by
  have h7 : ("error: " : String).length = 7 := rfl
  have h1 : (" " : String).length = 1 := rfl
  have hb : (code == 200 || code == 201) = false := by simp [h2, h3]
  have he : (emailStatusOf (Except.error e)).length = 7 + min 80 e.length := by
    show ("error: " ++ pyTruncate e 80).length = 7 + min 80 e.length
    rw [String.length_append, pyTruncate_length, h7]
  have hn : (notionStatusOf (Except.error e)).length = 7 + min 80 e.length := by
    show ("error: " ++ pyTruncate e 80).length = 7 + min 80 e.length
    rw [String.length_append, pyTruncate_length, h7]
  have hnn : (notionStatusOf (Except.ok (code, text))).length
      = 7 + ((toString code).length + (1 + min 80 text.length)) := by
    simp only [notionStatusOf, hb, Bool.false_eq_true, if_false]
    rw [String.length_append, String.length_append, String.length_append,
      pyTruncate_length, h7, h1]
    omega
  exact ⟨he, by rw [he]; omega, by rw [hn]; omega, by rw [hnn]; omega⟩

/-- C7 amended witness: a 100-character exception text and an HTTP 404
with some body stay within the stated bounds. -/
theorem failure_reason_bounds_witness :
    (emailStatusOf (Except.error longError)).length
      = 7 + min 80 longError.length ∧
    (emailStatusOf (Except.error longError)).length ≤ 87 ∧
    (notionStatusOf (Except.error longError)).length ≤ 87 ∧
    (notionStatusOf (Except.ok (404, "bad request"))).length
      ≤ 88 + (toString 404).length :=
  failure_reason_bounds longError "bad request" 404 (by decide) (by decide)

/-- C8: for every environment, `GET /api/plans` lists exactly the three
tiers `starter` (3h), `growth` (6h), `scale` (9h) in order, with one
identical feature list, and per tier the Stripe and PayPal links are the
corresponding environment values (absent when unset); the handler is a
pure read with no failure path. -/
theorem plans_catalog (env : Env) :
    (get_plans env).length = 3 ∧
    (get_plans env).map PlanTier.id = ["starter", "growth", "scale"] ∧
    (get_plans env).map PlanTier.hours = [3, 6, 9] ∧
    (∀ p ∈ get_plans env, p.features =
      ["Priority support", "AI-enhanced workflows", "Flexible hour use",
       "Instant collaboration"]) ∧
    (get_plans env).map PlanTier.stripe_url =
      [env.stripeStarterUrl, env.stripeGrowthUrl, env.stripeScaleUrl] ∧
    (get_plans env).map PlanTier.paypal_url =
      [env.paypalStarterUrl, env.paypalGrowthUrl, env.paypalScaleUrl] := by
  refine ⟨rfl, rfl, rfl, ?_, rfl, rfl⟩
  intro p hp
  simp only [get_plans, List.mem_cons, List.not_mem_nil, or_false] at hp
  rcases hp with h | h | h <;> subst h <;> rfl

/-- C8 witness: the catalog shape in the empty environment, with both
payment links absent on every tier. -/
theorem plans_catalog_witness :
    (get_plans envEmpty).length = 3 ∧
    (get_plans envEmpty).map PlanTier.id = ["starter", "growth", "scale"] ∧
    (get_plans envEmpty).map PlanTier.hours = [3, 6, 9] ∧
    (∀ p ∈ get_plans envEmpty, p.features =
      ["Priority support", "AI-enhanced workflows", "Flexible hour use",
       "Instant collaboration"]) ∧
    (get_plans envEmpty).map PlanTier.stripe_url =
      [envEmpty.stripeStarterUrl, envEmpty.stripeGrowthUrl,
       envEmpty.stripeScaleUrl] ∧
    (get_plans envEmpty).map PlanTier.paypal_url =
      [envEmpty.paypalStarterUrl, envEmpty.paypalGrowthUrl,
       envEmpty.paypalScaleUrl] :=
  plans_catalog envEmpty

/-- C9: `GET /test` always produces a report: the collection list never
exceeds 10 names, the two configuration variables appear only as
Set/Not-Set flags (never their values), an uninitialized backend is
reported as such, and an enumeration failure degrades the database field
to a warning while the report is still returned. -/
theorem diagnostics_report (imp : DbImportOutcome) (env : Env) :
    (test_database imp env).collections.length ≤ 10 ∧
    ((test_database imp env).database_url = some "✅ Set" ∨
      (test_database imp env).database_url = some "❌ Not Set") ∧
    ((test_database imp env).database_name = some "✅ Set" ∨
      (test_database imp env).database_name = some "❌ Not Set") ∧
    (imp = DbImportOutcome.ok none →
      (test_database imp env).database = "⚠️  Available but not initialized") ∧
    (∀ db e, imp = DbImportOutcome.ok (some db) →
      db.listCollectionNames = Except.error e →
      (test_database imp env).database
        = "⚠️  Connected but Error: " ++ pyTruncate e 50) := by
  refine ⟨?_, ?_, ?_, ?_, ?_⟩
  · cases imp with
    | importError => simp [test_database]
    | otherError e => simp [test_database]
    | ok db =>
      cases db with
      | none => simp [test_database]
      | some d =>
        cases hl : d.listCollectionNames with
        | ok cs => simp [test_database, hl]
        | error e => simp [test_database, hl]
  · cases hu : truthy env.databaseUrl <;> simp [test_database, hu]
  · cases hn : truthy env.databaseName <;> simp [test_database, hn]
  · intro h; subst h; rfl
  · intro db e h hl
    subst h
    simp [test_database, hl]

/-- C9 witness: a reachable backend whose collection enumeration raises
still yields a report, with the warning state and both flags. -/
theorem diagnostics_report_witness :
    (test_database (DbImportOutcome.ok
        (some { name := none, listCollectionNames := Except.error "boom" }))
      envEmpty).database = "⚠️  Connected but Error: " ++ pyTruncate "boom" 50 ∧
    (test_database (DbImportOutcome.ok
        (some { name := none, listCollectionNames := Except.error "boom" }))
      envEmpty).collections.length ≤ 10 ∧
    ((test_database (DbImportOutcome.ok
        (some { name := none, listCollectionNames := Except.error "boom" }))
      envEmpty).database_url = some "✅ Set" ∨
     (test_database (DbImportOutcome.ok
        (some { name := none, listCollectionNames := Except.error "boom" }))
      envEmpty).database_url = some "❌ Not Set") :=
  ⟨(diagnostics_report (DbImportOutcome.ok
      (some { name := none, listCollectionNames := Except.error "boom" }))
      envEmpty).2.2.2.2
    { name := none, listCollectionNames := Except.error "boom" } "boom" rfl rfl,
   (diagnostics_report (DbImportOutcome.ok
      (some { name := none, listCollectionNames := Except.error "boom" }))
      envEmpty).1,
   (diagnostics_report (DbImportOutcome.ok
      (some { name := none, listCollectionNames := Except.error "boom" }))
      envEmpty).2.1⟩

/-- C10: when SMTP_PORT is set to a string that does not convert to an
integer, the handler dies on the conversion — after the store attempt but
before the email configuration gate and outside every try block — so no
response is produced (the framework surfaces a server error) and neither
the email nor the Notion sink is attempted, whatever else is
configured. -/
theorem bad_smtp_port_kills_request (env : Env) (p : ContactPayload)
    (now : String) (store : Except String String) (send : Except String Unit)
    (post : Except String (Nat × String))
    (h : pythonInt (env.smtpPort.getD "587") = none) :
    (contact env p now store send post).response = none ∧
    (contact env p now store send post).emailAttempted = false ∧
    (contact env p now store send post).notionAttempted = false := by
  simp [contact, h]

/-- C10 witness: SMTP_PORT = "abc" with the Notion sink fully configured
and the email settings absent: no response, no sink attempt. -/
theorem bad_smtp_port_kills_request_witness :
    (contact envBadPort payloadA "t" (Except.ok "id1")
        (Except.ok ()) (Except.ok (200, ""))).response = none ∧
    (contact envBadPort payloadA "t" (Except.ok "id1")
        (Except.ok ()) (Except.ok (200, ""))).emailAttempted = false ∧
    (contact envBadPort payloadA "t" (Except.ok "id1")
        (Except.ok ()) (Except.ok (200, ""))).notionAttempted = false :=
  bad_smtp_port_kills_request envBadPort payloadA "t" (Except.ok "id1")
    (Except.ok ()) (Except.ok (200, "")) (by decide)

end ContactBackend
